import Mathlib

/-!
Verification of the Narwhal-style mempool Primary (src/node/narwhal/src/primary.rs).

The embedding models the state the claims are about: the proposal cell
holding the currently-proposed batch and its accumulated signatures, the
shared store contract (round, previous certificates, peer directory,
committee), the worker pool as a list of transmission maps (worker id is
the position in the list, matching the construction loop in run), and the
three operations the claims concern: propose_batch, the batch sealer loop
body, and process_batch_signature_from_peer.

Identifiers (addresses, batch ids, transmission ids, certificates) are
modelled as natural numbers. HashMap values are modelled as association
lists with an insert that overwrites the value at an existing key, which
matches HashMap insert/extend semantics up to iteration order; iteration
order is irrelevant here because only lookup results are stated.
-/

set_option autoImplicit false

namespace NarwhalPrimary

/-- Modelled from the spec: the signature scheme is an external
collaborator (snarkvm Signature). The spec round-trip law states that
verify holds for the message signed under the signer address, so a
signature is modelled as the pair of its signer address and signed
message, and verify checks both. -/
structure Signature where
  signer : Nat
  message : Nat
deriving DecidableEq, Repr

/-- Modelled from the spec: `signature.verify(address, [batch_id])`
holds exactly when the signature was produced by the holder of the
address over the batch id. -/
def Signature.verify (s : Signature) (address : Nat) (batch_id : Nat) : Bool :=
  s.signer == address && s.message == batch_id

/-- A batch, following the data model of the source: batch id, round,
transmissions map, previous certificates, timestamp. The author and the
author signature play no role in the claims and are omitted. -/
structure Batch where
  batch_id : Nat
  round : Nat
  transmissions : List (Nat × Nat)
  previous_certificates : List Nat
  timestamp : Nat
deriving DecidableEq, Repr

/-- A certificate: the batch together with the sealing signatures. -/
structure Certificate where
  batch : Batch
  signatures : List Signature
deriving DecidableEq, Repr

/-- Modelled from the spec: a SealedBatch wraps the certificate for
local storage (helpers::Batch::seal lives outside src/). -/
structure SealedBatch where
  certificate : Certificate
deriving DecidableEq, Repr

/-- Modelled from the spec: sealing a batch with the collected
signatures yields a sealed batch whose certificate carries the batch
and the signatures; seal preserves the batch id. -/
def Batch.seal (b : Batch) (sigs : List Signature) : SealedBatch :=
  { certificate := { batch := b, signatures := sigs } }

/-- Association-list lookup: first entry with the given key. -/
def lookupKV {β : Type} (k : Nat) : List (Nat × β) → Option β
  | [] => none
  | p :: rest => if p.1 = k then some p.2 else lookupKV k rest

/-- HashMap-style insert: overwrite the value at an existing key,
otherwise append the new entry. -/
def insertKV (m : List (Nat × Nat)) (kv : Nat × Nat) : List (Nat × Nat) :=
  match m with
  | [] => [kv]
  | p :: rest => if p.1 = kv.1 then kv :: rest else p :: insertKV rest kv

/-- HashMap::extend — insert every entry of the second map into the
first, overwriting on duplicate keys (later entries win). -/
def extend (m : List (Nat × Nat)) (es : List (Nat × Nat)) : List (Nat × Nat) :=
  es.foldl insertKV m

/-- The value at the LAST occurrence of a key in an entry list, if any;
used to state the last-writer-wins property of extend. -/
def lastLookup (es : List (Nat × Nat)) (k : Nat) : Option Nat :=
  match es with
  | [] => none
  | e :: rest =>
    match lastLookup rest k with
    | some v => some v
    | none => if e.1 = k then some e.2 else none

/-- The drain loop of propose_batch: fold HashMap::extend over every
worker drain output, in worker order (worker id = list position, as
established by the construction loop in run). -/
def drainAll (ws : List (List (Nat × Nat))) : List (Nat × Nat) :=
  ws.foldl extend []

/-- The shared store contract used by the Primary: the round counter,
the previous-certificates registry (round to certificate list), the
peer directory (socket address to validator address), the committee,
and the validator count. -/
structure Shared where
  round : Nat
  previous_certificates_map : List (Nat × List Nat)
  directory : List (Nat × Nat)
  committee : List Nat
  num_validators : Nat
deriving DecidableEq, Repr

/-- shared.get_address(peer_ip): peer directory lookup. -/
def Shared.get_address (sh : Shared) (peer_ip : Nat) : Option Nat :=
  lookupKV peer_ip sh.directory

/-- shared.is_committee_member(address). -/
def Shared.is_committee_member (sh : Shared) (address : Nat) : Bool :=
  sh.committee.contains address

/-- The Primary state relevant to the claims: the shared store, the
workers (each a transmission map; worker id is the position), the
proposal cell, the local account address, the signing key and the
current time used when constructing a batch. -/
structure Primary where
  shared : Shared
  workers : List (List (Nat × Nat))
  proposed_batch : Option (Batch × List Signature)
  local_address : Nat
  private_key : Nat
  now : Nat
deriving DecidableEq, Repr

/-- Outbound events the modelled operations can emit. -/
inductive Event where
  | batchPropose (batch : Batch)
  | batchSignature (batch_id : Nat) (signature : Signature)
  | batchSealed (certificate : Certificate)
deriving DecidableEq, Repr

/-- An inbound BatchSignature message: a batch id and a signature. -/
structure BatchSignature where
  batch_id : Nat
  signature : Signature
deriving DecidableEq, Repr

/-- Modelled from the spec: Batch::new (helpers, outside src/) signs
and assembles a batch; per the data model the batch id is a digest over
the remaining fields, modelled by Nat pairing, and per the spec the
only construction failure is a signing failure, modelled as never
occurring. -/
def Batch.new (private_key : Nat) (round : Nat) (transmissions : List (Nat × Nat))
    (previous_certificates : List Nat) (timestamp : Nat) : Except Unit Batch :=
  Except.ok
    { batch_id :=
        Nat.pair private_key (Nat.pair round (Nat.pair
          (transmissions.foldl (fun a p => Nat.pair a (Nat.pair p.1 p.2)) 0)
          (Nat.pair (previous_certificates.foldl Nat.pair 0) timestamp)))
      round := round
      transmissions := transmissions
      previous_certificates := previous_certificates
      timestamp := timestamp }

/-- propose_batch (primary.rs lines 122 to 149): drain every worker
into one map, read the round, read the previous certificates with
unwrap_or_default, construct the batch, set the proposal cell to the
batch with an empty signature list, and broadcast BatchPropose. -/
def propose_batch (st : Primary) : Except Unit (Primary × List Event) :=
  let transmissions := drainAll st.workers
  let round := st.shared.round
  let previous_certificates := (lookupKV round st.shared.previous_certificates_map).getD []
  match Batch.new st.private_key round transmissions previous_certificates st.now with
  | Except.error e => Except.error e
  | Except.ok batch =>
    Except.ok
      ({ st with
          workers := st.workers.map (fun _ => [])
          proposed_batch := some (batch, []) },
       [Event.batchPropose batch])

/-- One pass of the batch proposer loop body (primary.rs lines 247 to
259): if the proposal cell is occupied, sleep and retry (state
unchanged); otherwise call propose_batch, logging and dropping any
error. -/
def start_batch_proposer_pass (st : Primary) : Primary × List Event :=
  if st.proposed_batch.isSome then (st, [])
  else
    match propose_batch st with
    | Except.ok r => r
    | Except.error _ => (st, [])

/-- The outcome of one pass of the batch sealer loop body. -/
structure SealerResult where
  state : Primary
  events : List Event
  stored : List (Nat × SealedBatch)
  is_expired : Bool
  is_ready : Bool
  panicked : Bool
deriving DecidableEq, Repr

/-- One pass of the batch sealer loop body (primary.rs lines 268 to
320). The flags start false; the expiry computation is commented out
in the source, so is_expired stays false. If the cell is empty the
pass just sleeps. Otherwise the snapshot sets is_ready when the
signature list is nonempty (the placeholder quorum). The expired
branch would clear the cell; the ready branch takes the cell (the
unwrap on the take is modelled by the panicked flag when the cell is
empty at that point), seals the batch with the collected signatures,
stores the sealed batch under the local address, and broadcasts
BatchSealed with the certificate. -/
def start_batch_sealer_pass (st : Primary) : SealerResult :=
  let is_expired := false
  let is_ready := false
  match st.proposed_batch with
  | none =>
    { state := st, events := [], stored := [],
      is_expired := is_expired, is_ready := is_ready, panicked := false }
  | some (_batch, signatures) =>
    let is_ready := if signatures.isEmpty = false then true else is_ready
    let cell1 := if is_expired then none else st.proposed_batch
    if is_ready then
      match cell1 with
      | some (batch2, signatures2) =>
        let sealed_batch := batch2.seal signatures2
        let certificate := sealed_batch.certificate
        let address := st.local_address
        { state := { st with proposed_batch := none },
          events := [Event.batchSealed certificate],
          stored := [(address, sealed_batch)],
          is_expired := is_expired, is_ready := is_ready, panicked := false }
      | none =>
        { state := { st with proposed_batch := none },
          events := [], stored := [],
          is_expired := is_expired, is_ready := is_ready, panicked := true }
    else
      { state := { st with proposed_batch := cell1 },
        events := [], stored := [],
        is_expired := is_expired, is_ready := is_ready, panicked := false }

/-- process_batch_signature_from_peer (primary.rs lines 346 to 381),
phased to expose the two lock acquisitions: cellAtRead is the cell
content at the read lock of the batch-id check (line 355), cellAtWrite
the content at the write lock of the final append (line 376); between
the two the lock is released, so they may differ. Returns the cell
content after the call, the outbound events, and the Result. Every
rejection path warns and returns Ok without touching the cell; the
final append fires whenever the cell is occupied at write time. -/
def process_batch_signature_phased
    (cellAtRead : Option (Batch × List Signature)) (sh : Shared)
    (peer_ip : Nat) (bs : BatchSignature)
    (cellAtWrite : Option (Batch × List Signature)) :
    Option (Batch × List Signature) × List Event × Except Unit Unit :=
  if cellAtRead.map (fun p => p.1.batch_id) ≠ some bs.batch_id then
    (cellAtWrite, [], Except.ok ())
  else
    match sh.get_address peer_ip with
    | none => (cellAtWrite, [], Except.ok ())
    | some address =>
      if sh.is_committee_member address = false then
        (cellAtWrite, [], Except.ok ())
      else if bs.signature.verify address bs.batch_id = false then
        (cellAtWrite, [], Except.ok ())
      else
        match cellAtWrite with
        | some (batch, signatures) =>
          (some (batch, signatures ++ [bs.signature]), [], Except.ok ())
        | none => (none, [], Except.ok ())

/-- process_batch_signature_from_peer run sequentially (no interleaved
writer between the read check and the final append): both lock
acquisitions see the same cell content. -/
def process_batch_signature_from_peer (st : Primary) (peer_ip : Nat)
    (bs : BatchSignature) : Primary × List Event × Except Unit Unit :=
  let r := process_batch_signature_phased st.proposed_batch st.shared peer_ip bs st.proposed_batch
  ({ st with proposed_batch := r.1 }, r.2.1, r.2.2)

/-- The conjunction of the four acceptance checks of
process_batch_signature_from_peer on the cell content seen at the read
lock: batch id matches the proposed batch, the peer address is known,
the address is a committee member, and the signature verifies. -/
def signature_checks (cell : Option (Batch × List Signature)) (sh : Shared)
    (peer_ip : Nat) (bs : BatchSignature) : Bool :=
  decide (cell.map (fun p => p.1.batch_id) = some bs.batch_id) &&
  match sh.get_address peer_ip with
  | none => false
  | some address => sh.is_committee_member address && bs.signature.verify address bs.batch_id

/-- Follows the wording of the spec, for comparison with the code: the
quorum threshold in a BFT setting, the ceiling of 2n/3, plus 1. -/
def spec_quorum_threshold (n : Nat) : Nat :=
  (2 * n + 2) / 3 + 1

/-! Helper lemmas about the HashMap model. -/

theorem lookupKV_insertKV (m : List (Nat × Nat)) (kv : Nat × Nat) (k : Nat) :
    lookupKV k (insertKV m kv) = if kv.1 = k then some kv.2 else lookupKV k m := by
  induction m with
  | nil => simp [insertKV, lookupKV]
  | cons p rest ih =>
    by_cases h1 : p.1 = kv.1
    · by_cases h2 : kv.1 = k <;> simp [insertKV, lookupKV, h1, h2]
    · by_cases h2 : p.1 = k
      · have h3 : ¬ kv.1 = k := fun hk => h1 (h2.trans hk.symm)
        have h4 : ¬ k = kv.1 := fun hk => h3 hk.symm
        simp [insertKV, lookupKV, h1, h2, h3, h4]
      · simp [insertKV, lookupKV, h1, h2, ih]

theorem lookupKV_extend (es : List (Nat × Nat)) (m : List (Nat × Nat)) (k : Nat) :
    lookupKV k (extend m es) =
      match lastLookup es k with
      | some v => some v
      | none => lookupKV k m := by
  induction es generalizing m with
  | nil => simp [extend, lastLookup]
  | cons e rest ih =>
    have step : extend m (e :: rest) = extend (insertKV m e) rest := rfl
    rw [step, ih]
    cases h : lastLookup rest k with
    | some v => simp [lastLookup, h]
    | none =>
      by_cases h2 : e.1 = k <;> simp [lastLookup, h, h2, lookupKV_insertKV]

theorem extend_append (m : List (Nat × Nat)) (a b : List (Nat × Nat)) :
    extend m (a ++ b) = extend (extend m a) b := by
  simp [extend, List.foldl_append]

theorem foldl_extend_join (ws : List (List (Nat × Nat))) (m : List (Nat × Nat)) :
    ws.foldl extend m = extend m ws.flatten := by
  induction ws generalizing m with
  | nil => simp [extend]
  | cons w rest ih => simp [List.flatten, ih, extend_append]

theorem lookupKV_drainAll (ws : List (List (Nat × Nat))) (k : Nat) :
    lookupKV k (drainAll ws) = lastLookup ws.flatten k := by
  rw [drainAll, foldl_extend_join, lookupKV_extend]
  cases h : lastLookup ws.flatten k <;> simp [lookupKV]

/-! Concrete fixtures used by counterexamples and witnesses. -/

/-- A concrete batch with batch id 1. -/
def batchA : Batch :=
  { batch_id := 1, round := 0, transmissions := [], previous_certificates := [], timestamp := 0 }

/-- A concrete batch with batch id 2, distinct from batchA. -/
def batchB : Batch :=
  { batch_id := 2, round := 0, transmissions := [], previous_certificates := [], timestamp := 0 }

/-- A signature by the validator at address 100 over batch id 1. -/
def sigB : Signature := { signer := 100, message := 1 }

/-- A shared store: round 0, no previous certificates registered, peer 7
maps to address 100, committee of one known member, four validators. -/
def sh1 : Shared :=
  { round := 0, previous_certificates_map := [], directory := [(7, 100)],
    committee := [100], num_validators := 4 }

/-- An inbound BatchSignature for batch id 1 carrying sigB. -/
def bs1 : BatchSignature := { batch_id := 1, signature := sigB }

/-- A Primary whose proposal cell holds batchA with no signatures yet. -/
def st0 : Primary :=
  { shared := sh1, workers := [], proposed_batch := some (batchA, []),
    local_address := 0, private_key := 0, now := 0 }

/-- A Primary with an empty proposal cell. -/
def stEmptyCell : Primary := { st0 with proposed_batch := none }

/-- A Primary whose proposal cell holds batchA with one collected
signature, so the placeholder quorum deems it ready. -/
def stReady : Primary := { st0 with proposed_batch := some (batchA, [sigB]) }

/-- A Primary holding a batch with timestamp 0 and no signatures while
the clock reads 1000000: expired for any expiration bound below that. -/
def stOld : Primary := { st0 with now := 1000000 }

/-! Shared helper lemmas about the batch-signature handler. -/

/-- When all four acceptance checks fail on the read snapshot, the
handler returns Ok, emits nothing, and leaves the cell as found at
write time. -/
theorem phased_result_of_checks_false
    (cellAtRead : Option (Batch × List Signature)) (sh : Shared)
    (peer_ip : Nat) (bs : BatchSignature)
    (cellAtWrite : Option (Batch × List Signature))
    (h : signature_checks cellAtRead sh peer_ip bs = false) :
    process_batch_signature_phased cellAtRead sh peer_ip bs cellAtWrite =
      (cellAtWrite, [], Except.ok ()) := by
  unfold signature_checks at h
  unfold process_batch_signature_phased
  by_cases h1 : cellAtRead.map (fun p => p.1.batch_id) = some bs.batch_id
  · cases ha : sh.get_address peer_ip with
    | none => simp [h1, ha]
    | some address =>
      simp [h1, ha] at h
      by_cases h2 : sh.is_committee_member address
      · have h3 := h h2
        simp [h1, ha, h2, h3]
      · have h4 : sh.is_committee_member address = false := by
          simpa using h2
        simp [h1, ha, h4]
  · simp [h1]

/-- When all four acceptance checks pass on the read snapshot, the
handler appends the signature whenever the cell is occupied at write
time, with no further condition on the batch held there. -/
theorem phased_result_of_checks_true
    (cellAtRead : Option (Batch × List Signature)) (sh : Shared)
    (peer_ip : Nat) (bs : BatchSignature)
    (cellAtWrite : Option (Batch × List Signature))
    (h : signature_checks cellAtRead sh peer_ip bs = true) :
    process_batch_signature_phased cellAtRead sh peer_ip bs cellAtWrite =
      ((match cellAtWrite with
        | some (b, s) => some (b, s ++ [bs.signature])
        | none => none), [], Except.ok ()) := by
  unfold signature_checks at h
  unfold process_batch_signature_phased
  by_cases h1 : cellAtRead.map (fun p => p.1.batch_id) = some bs.batch_id
  · cases ha : sh.get_address peer_ip with
    | none => simp [h1, ha] at h
    | some address =>
      simp [h1, ha] at h
      obtain ⟨h2, h3⟩ := h
      simp [h1, ha, h2, h3]
      cases cellAtWrite with
      | none => rfl
      | some cw => rfl
  · simp [h1] at h

/-! Claim theorems. -/

/-- Claim C10: the unwrap on the take of the proposal cell in the ready
branch of the sealer loop never panics: within one sequential pass,
is_ready is set only when the snapshot found the cell occupied, the
expired branch never clears it (is_expired stays false), so the take
always yields a value. -/
theorem sealer_take_never_panics (st : Primary) :
    (start_batch_sealer_pass st).panicked = false := by
  rcases h : st.proposed_batch with _ | ⟨b, sigs⟩
  · simp [start_batch_sealer_pass, h]
  · by_cases hs : sigs.isEmpty <;> simp [start_batch_sealer_pass, h, hs]

/-- Claim C8: on a sealer pass where the snapshot is ready (occupied
cell, nonempty signature list), the pass clears the cell, seals the
batch with exactly the collected signatures, stores the sealed batch
under the local address, broadcasts BatchSealed with its certificate,
and does not panic. -/
theorem sealer_ready_seals_and_clears (st : Primary) (batch : Batch)
    (signatures : List Signature)
    (hcell : st.proposed_batch = some (batch, signatures))
    (hsig : signatures ≠ []) :
    (start_batch_sealer_pass st).state.proposed_batch = none ∧
    (start_batch_sealer_pass st).events =
      [Event.batchSealed (batch.seal signatures).certificate] ∧
    (start_batch_sealer_pass st).stored = [(st.local_address, batch.seal signatures)] ∧
    (start_batch_sealer_pass st).panicked = false := by
  have hs : signatures.isEmpty = false := by
    cases signatures with
    | nil => simp at hsig
    | cons a l => rfl
  simp [start_batch_sealer_pass, hcell, hs]

/-- Claim C8 witness: the ready fixture is sealed, stored and cleared. -/
theorem sealer_ready_seals_and_clears_witness :
    (start_batch_sealer_pass stReady).state.proposed_batch = none ∧
    (start_batch_sealer_pass stReady).events =
      [Event.batchSealed (batchA.seal [sigB]).certificate] ∧
    (start_batch_sealer_pass stReady).stored = [(stReady.local_address, batchA.seal [sigB])] ∧
    (start_batch_sealer_pass stReady).panicked = false :=
  sealer_ready_seals_and_clears stReady batchA [sigB] rfl (by decide)

/-- Claim C3 counterexample: with four validators the BFT quorum of the
spec is 4, yet a single collected signature already sets is_ready on
the sealer pass, so is_ready is not equivalent to reaching
quorum_threshold(num_validators). -/
theorem sealer_quorum_placeholder_cex :
    (start_batch_sealer_pass stReady).is_ready = true ∧
    stReady.proposed_batch = some (batchA, [sigB]) ∧
    [sigB].length < spec_quorum_threshold stReady.shared.num_validators := by
  decide

/-- Claim C3 amended: on a pass that snapshots an occupied cell,
is_ready is set if and only if the snapshot holds at least one
signature — the placeholder quorum of the source — independently of
num_validators. -/
theorem sealer_ready_iff_nonempty (st : Primary) (batch : Batch)
    (signatures : List Signature)
    (hcell : st.proposed_batch = some (batch, signatures)) :
    ((start_batch_sealer_pass st).is_ready = true ↔ signatures ≠ []) := by
  cases signatures with
  | nil => simp [start_batch_sealer_pass, hcell]
  | cons a l => simp [start_batch_sealer_pass, hcell]

/-- Claim C3 witness: the ready fixture has is_ready true and a
nonempty snapshot. -/
theorem sealer_ready_iff_nonempty_witness :
    ((start_batch_sealer_pass stReady).is_ready = true ↔ [sigB] ≠ []) :=
  sealer_ready_iff_nonempty stReady batchA [sigB] rfl

/-- Claim C4 counterexample: a pass over a cell holding a batch of
timestamp 0 while the clock reads 1000000 — expired for any expiration
bound below that — does not clear the cell and reports is_expired
false: the expiry computation is commented out in the source. -/
theorem sealer_expired_batch_not_cleared :
    (start_batch_sealer_pass stOld).is_expired = false ∧
    (start_batch_sealer_pass stOld).state.proposed_batch = some (batchA, []) ∧
    stOld.now - batchA.timestamp > 999999 := by
  decide

/-- Claim C4 amended: is_expired is always false (the computation is
commented out), so the expired branch never clears the cell: on any
pass that is not ready, the cell is left exactly as it was. -/
theorem sealer_expiry_branch_dead (st : Primary)
    (h : (start_batch_sealer_pass st).is_ready = false) :
    (start_batch_sealer_pass st).is_expired = false ∧
    (start_batch_sealer_pass st).state.proposed_batch = st.proposed_batch := by
  rcases hc : st.proposed_batch with _ | ⟨b, sigs⟩
  · simp [start_batch_sealer_pass, hc]
  · cases sigs with
    | nil => simp [start_batch_sealer_pass, hc]
    | cons a l =>
      exfalso
      simp [start_batch_sealer_pass, hc] at h

/-- Claim C4 witness: the not-ready stale fixture keeps its cell. -/
theorem sealer_expiry_branch_dead_witness :
    (start_batch_sealer_pass stOld).is_expired = false ∧
    (start_batch_sealer_pass stOld).state.proposed_batch = stOld.proposed_batch :=
  sealer_expiry_branch_dead stOld (by decide)

/-- Claim C9: propose_batch performs no occupancy check: from any
starting cell state, including an occupied one, a successful call
overwrites the cell with the new batch paired with an empty signature
list, discarding the previous proposal and its signatures; the at most
one outstanding proposal rule lives only in the proposer loop, whose
pass leaves the state untouched when the cell is occupied. -/
theorem propose_overwrites_cell (st : Primary) (b : Batch) (sigs : List Signature)
    (hcell : st.proposed_batch = some (b, sigs)) :
    (∃ nb : Batch,
      propose_batch st =
        Except.ok ({ st with
                      workers := st.workers.map (fun _ => [])
                      proposed_batch := some (nb, []) },
                   [Event.batchPropose nb])) ∧
    start_batch_proposer_pass st = (st, []) := by
  constructor
  · exact ⟨_, rfl⟩
  · simp [start_batch_proposer_pass, hcell]

/-- Claim C9 witness: the fixture with an occupied cell holding one
collected signature is overwritten by propose_batch, while the
proposer loop pass would have skipped it. -/
theorem propose_overwrites_cell_witness :
    (∃ nb : Batch,
      propose_batch stReady =
        Except.ok ({ stReady with
                      workers := stReady.workers.map (fun _ => [])
                      proposed_batch := some (nb, []) },
                   [Event.batchPropose nb])) ∧
    start_batch_proposer_pass stReady = (stReady, []) :=
  propose_overwrites_cell stReady batchA [sigB] rfl

/-- Claim C7: every successful propose_batch drains every worker,
unions the drained transmissions into one map with duplicate keys
resolved by the last writer in worker order, builds the batch from the
current round and that round's previous certificates, sets the cell to
the batch with an empty signature list, and broadcasts BatchPropose
with that batch. -/
theorem propose_batch_spec (st : Primary) (st1 : Primary) (evs : List Event)
    (h : propose_batch st = Except.ok (st1, evs)) :
    ∃ batch : Batch,
      st1.proposed_batch = some (batch, []) ∧
      evs = [Event.batchPropose batch] ∧
      batch.round = st.shared.round ∧
      batch.previous_certificates =
        (lookupKV st.shared.round st.shared.previous_certificates_map).getD [] ∧
      batch.transmissions = drainAll st.workers ∧
      (∀ k : Nat, lookupKV k batch.transmissions = lastLookup st.workers.flatten k) ∧
      st1.workers = st.workers.map (fun _ => []) := by
  unfold propose_batch Batch.new at h
  simp only [Except.ok.injEq, Prod.mk.injEq] at h
  obtain ⟨h1, h2⟩ := h
  subst h1
  subst h2
  exact ⟨_, rfl, rfl, rfl, rfl, rfl,
    (fun k => lookupKV_drainAll st.workers k), rfl⟩

/-- A concrete Primary with two workers whose drains overlap on
transmission id 10, for exercising the last-writer-wins union. -/
def stWorkers : Primary :=
  { shared := { round := 2, previous_certificates_map := [(2, [5])], directory := [],
                committee := [], num_validators := 1 },
    workers := [[(10, 1)], [(10, 2), (11, 3)]], proposed_batch := none,
    local_address := 0, private_key := 0, now := 7 }

/-- The result of propose_batch on the two-worker fixture. -/
def stWorkersOut : Primary × List Event :=
  match propose_batch stWorkers with
  | Except.ok r => r
  | Except.error _ => (stWorkers, [])

/-- Claim C7 witness: propose_batch on the two-worker fixture satisfies
the full characterization. -/
theorem propose_batch_spec_witness :
    ∃ batch : Batch,
      stWorkersOut.1.proposed_batch = some (batch, []) ∧
      stWorkersOut.2 = [Event.batchPropose batch] ∧
      batch.round = stWorkers.shared.round ∧
      batch.previous_certificates =
        (lookupKV stWorkers.shared.round stWorkers.shared.previous_certificates_map).getD [] ∧
      batch.transmissions = drainAll stWorkers.workers ∧
      (∀ k : Nat, lookupKV k batch.transmissions = lastLookup stWorkers.workers.flatten k) ∧
      stWorkersOut.1.workers = stWorkers.workers.map (fun _ => []) :=
  propose_batch_spec stWorkers stWorkersOut.1 stWorkersOut.2 rfl

/-- Claim C6: every rejection path of process_batch_signature_from_peer
— empty cell or foreign batch id, unknown peer address, signer not in
the committee, or failed signature verification — returns Ok, leaves
the Primary state (cell included) unchanged, and emits no outbound
event. -/
theorem rejected_signature_leaves_state (st : Primary) (peer_ip : Nat)
    (bs : BatchSignature)
    (h : signature_checks st.proposed_batch st.shared peer_ip bs = false) :
    process_batch_signature_from_peer st peer_ip bs = (st, [], Except.ok ()) := by
  unfold process_batch_signature_from_peer
  rw [phased_result_of_checks_false st.proposed_batch st.shared peer_ip bs st.proposed_batch h]

/-- Claim C6 witness: a signature for batch id 1 arriving while the
cell is empty is dropped with Ok and no state change. -/
theorem rejected_signature_leaves_state_witness :
    signature_checks stEmptyCell.proposed_batch stEmptyCell.shared 7 bs1 = false ∧
    process_batch_signature_from_peer stEmptyCell 7 bs1 = (stEmptyCell, [], Except.ok ()) :=
  ⟨by decide, rejected_signature_leaves_state stEmptyCell 7 bs1 (by decide)⟩

/-- Claim C2 counterexample: the checks pass against the read snapshot
holding batchA (batch id 1), but at write-lock time the cell holds
batchB (batch id 2): the signature is appended to the batchB cell even
though the re-read batch id no longer matches the incoming one,
contradicting the claim that the append requires the id to still
match. -/
theorem write_lock_no_batch_id_recheck :
    (process_batch_signature_phased (some (batchA, [])) sh1 7 bs1 (some (batchB, []))).1
      = some (batchB, [sigB]) ∧
    batchB.batch_id ≠ bs1.batch_id := by
  decide

/-- Claim C2 amended: under the write lock the handler re-checks only
that the cell is still occupied; when it is, the verified signature is
appended to whatever batch the cell holds, with no re-check of its
batch id. -/
theorem write_lock_append_occupancy_only
    (cellAtRead : Option (Batch × List Signature)) (sh : Shared)
    (peer_ip : Nat) (bs : BatchSignature)
    (cellAtWrite : Option (Batch × List Signature))
    (h : signature_checks cellAtRead sh peer_ip bs = true) :
    (process_batch_signature_phased cellAtRead sh peer_ip bs cellAtWrite).1 =
      match cellAtWrite with
      | some (b, s) => some (b, s ++ [bs.signature])
      | none => none := by
  rw [phased_result_of_checks_true cellAtRead sh peer_ip bs cellAtWrite h]

/-- Claim C2 witness: with passing checks and an occupied write-time
cell the signature is appended to it. -/
theorem write_lock_append_occupancy_only_witness :
    (process_batch_signature_phased (some (batchA, [])) sh1 7 bs1 (some (batchA, [sigB]))).1
      = some (batchA, [sigB, sigB]) :=
  write_lock_append_occupancy_only (some (batchA, [])) sh1 7 bs1
    (some (batchA, [sigB])) (by decide)

/-- Claim C1 counterexample: the same BatchSignature from peer 7 is
processed twice from a cell with no signatures; afterwards the cell
holds two identical entries, both with signer address 100 — the claim
that the list keeps exactly one entry per signer address is false. -/
theorem signature_dedup_cex :
    ((process_batch_signature_from_peer
        (process_batch_signature_from_peer st0 7 bs1).1 7 bs1).1).proposed_batch
      = some (batchA, [sigB, sigB]) ∧
    ((match ((process_batch_signature_from_peer
        (process_batch_signature_from_peer st0 7 bs1).1 7 bs1).1).proposed_batch with
      | some (_, sigs) => (sigs.filter (fun s => s.signer == 100)).length
      | none => 0) = 2) := by
  decide

/-- Claim C1 amended: an accepted signature is appended to the list
unconditionally, with no deduplication by signer address: when the
signer is already present, the list afterwards contains one more entry
for that address than before. -/
theorem signature_append_no_dedup (st : Primary) (peer_ip : Nat)
    (bs : BatchSignature) (b : Batch) (sigs : List Signature)
    (hcell : st.proposed_batch = some (b, sigs))
    (h : signature_checks st.proposed_batch st.shared peer_ip bs = true) :
    (process_batch_signature_from_peer st peer_ip bs).1.proposed_batch
      = some (b, sigs ++ [bs.signature]) := by
  unfold process_batch_signature_from_peer
  rw [phased_result_of_checks_true st.proposed_batch st.shared peer_ip bs st.proposed_batch h]
  simp [hcell]

/-- Claim C1 witness: processing bs1 while sigB (same signer, same
message) is already collected appends a duplicate entry. -/
theorem signature_append_no_dedup_witness :
    (process_batch_signature_from_peer stReady 7 bs1).1.proposed_batch
      = some (batchA, [sigB, sigB]) :=
  signature_append_no_dedup stReady 7 bs1 batchA [sigB] rfl (by decide)

/-- Claim C5 counterexample: with no previous certificates registered
for the current round, propose_batch still returns Ok: it constructs a
batch whose previous-certificates set is empty, installs it in the
cell, and broadcasts it — it does not return an error. -/
theorem propose_no_certs_still_ok :
    lookupKV stEmptyCell.shared.round stEmptyCell.shared.previous_certificates_map = none ∧
    (match propose_batch stEmptyCell with
     | Except.ok (st1, evs) =>
       (match st1.proposed_batch with
        | some (b, s) =>
          b.previous_certificates = [] ∧ s = [] ∧ evs = [Event.batchPropose b]
        | none => False)
     | Except.error _ => False) :=
  ⟨rfl, rfl, rfl, rfl⟩

/-- Claim C5 amended: when previous_certificates(round) is absent,
propose_batch substitutes the empty set (unwrap_or_default) and
succeeds, proposing and broadcasting a batch with an empty
previous-certificates list. -/
theorem propose_defaults_empty_certificates (st : Primary)
    (h : lookupKV st.shared.round st.shared.previous_certificates_map = none) :
    ∃ (st1 : Primary) (evs : List Event) (batch : Batch),
      propose_batch st = Except.ok (st1, evs) ∧
      st1.proposed_batch = some (batch, []) ∧
      batch.previous_certificates = [] ∧
      evs = [Event.batchPropose batch] := by
  refine ⟨_, _, _, rfl, rfl, ?_, rfl⟩
  show (lookupKV st.shared.round st.shared.previous_certificates_map).getD [] = []
  rw [h]
  rfl

/-- Claim C5 witness: the fixture with an empty certificate registry
yields a successful proposal with no previous certificates. -/
theorem propose_defaults_empty_certificates_witness :
    ∃ (st1 : Primary) (evs : List Event) (batch : Batch),
      propose_batch stEmptyCell = Except.ok (st1, evs) ∧
      st1.proposed_batch = some (batch, []) ∧
      batch.previous_certificates = [] ∧
      evs = [Event.batchPropose batch] :=
  propose_defaults_empty_certificates stEmptyCell rfl

end NarwhalPrimary
